import Mathlib

/-!
Shallow embedding of the mac2mqtt bridge (Go sources `main.go` and the
second, unnamed variant of the same file) for checking the repository's
natural-language specification.

The repository has two variants of the single Go source file:
* `src/main.go` — the named file; its message handler uses a sequence of
  independent `if` blocks and publishes state immediately after a volume or
  mute mutation, and its sleep/displaysleep/shutdown blocks publish an
  acknowledgement message, wait one second and then run the host action.
* `src/unnamed/part_000` — a variant whose handler uses an `else if` chain,
  logs every received command, waits one second between a volume/mute
  mutation and the state publishes, and runs the host actions directly
  with no acknowledgement publish.

Both variants are embedded (`onMessageMain` and `onMessagePart`).  Side
effects (shell mutators, MQTT publishes, `time.Sleep`, log lines) are
reified as an `Event` list; the host's audio state is threaded through an
abstract `HCI` (Host Control Interface) record so that read-back semantics
can be stated for an arbitrary — in particular an adversarial — interface.
Machine integers are modelled as `Int`; the only integer the handlers
accept is range-checked to [0,100], far below any overflow boundary.
-/

namespace Mac2mqtt

/-! ### Go standard-library string helpers used by the source -/

/-- Digits of a decimal numeral, most significant first, to a `Nat`;
`none` when the list is empty or contains a non-digit.  This is the core
of `strconv.Atoi`. -/
def decDigitsToNat : List Char → Option Nat
  | [] => none
  | l =>
    if l.all Char.isDigit then
      some (l.foldl (fun a c => a * 10 + (c.toNat - '0'.toNat)) 0)
    else none

/-- Model of Go `strconv.Atoi`: optional leading sign, then one or more
decimal digits, nothing else.  (Go additionally reports a range error for
numerals beyond 64 bits; the handler rejects those by its `i <= 100` range
check as well, so the observable handler behaviour is identical.) -/
def goAtoi (s : String) : Option Int :=
  match s.data with
  | '+' :: rest => (decDigitsToNat rest).map Int.ofNat
  | '-' :: rest => (decDigitsToNat rest).map fun n => -(n : Int)
  | l => (decDigitsToNat l).map Int.ofNat

/-- Model of Go `strconv.ParseBool`: exactly the twelve literal forms from
its `switch` statement are accepted. -/
def goParseBool (s : String) : Option Bool :=
  if s ∈ (["1", "t", "T", "TRUE", "true", "True"] : List String) then some true
  else if s ∈ (["0", "f", "F", "FALSE", "false", "False"] : List String) then some false
  else none

/-- Model of Go `strconv.Itoa` / `FormatInt` output (decimal, `-` sign). -/
def goItoa (i : Int) : String := toString i

/-- Model of Go `strconv.FormatBool`. -/
def goBoolStr (b : Bool) : String := if b then "true" else "false"

/-- Model of Go `strings.Contains s sub`. -/
def strContains (s sub : String) : Bool := decide (sub.data <:+: s.data)

/-! ### Host identity (`getHostname`, and `main`'s actual assignment) -/

/-- The characters the hostname sanitizer keeps: `[a-zA-Z0-9_-]`, the
complement of `getHostname`'s regular expression `[^a-zA-Z0-9_-]+`. -/
def isAllowedHostChar (c : Char) : Bool :=
  (('a' ≤ c && c ≤ 'z') || ('A' ≤ c && c ≤ 'Z') || ('0' ≤ c && c ≤ '9')
    || c = '_' || c = '-')

/-- First segment before a `'.'`: Go `strings.Split(s, ".")[0]`. -/
def takeUntilDot : List Char → List Char
  | [] => []
  | c :: rest => if c = '.' then [] else c :: takeUntilDot rest

/-- Model of `getHostname`: the OS hostname's first dot-separated part
with every character outside `[a-zA-Z0-9_-]` removed
(`regexp.ReplaceAllString` with the empty replacement is a filter). -/
def getHostname (osName : String) : String :=
  String.mk ((takeUntilDot osName.data).filter isAllowedHostChar)

/-- The host identity the program actually uses: `main` assigns the
string literal `"MacBookPRO_M2"` to the global `hostname` variable and
never calls `getHostname`. -/
def mainHostname : String := "MacBookPRO_M2"

/-- `main` sets the global `model` to the same value as `hostname`. -/
def mainModel : String := mainHostname

/-- Model of `getTopicPrefix`, parameterized by the global `hostname`. -/
def getTopicPrefix (h : String) : String := "homeassistant/" ++ h

/-- The wildcard command topic `main`'s connect handler subscribes to. -/
def mainSubscribeTopic : String := getTopicPrefix mainHostname ++ "/command/#"

/-! ### Events and the Host Control Interface -/

/-- One observable side effect of the command handler or a publisher. -/
inductive Event where
  | setVolume (i : Int)
  | setMute (b : Bool)
  | publish (topic : String) (retained : Bool) (payload : String)
  | sleepSec (n : Nat)
  | logMsg (s : String)
  | cmdSleep
  | cmdDisplaySleep
  | cmdShutdown
deriving DecidableEq, Repr

/-- The Host Control Interface: the OS-level audio state is an abstract
`σ`; reads and writes go through these four operations (the shell
wrappers `getCurrentVolume`, `setVolume`, `getMuteStatus`, `setMute`).
Keeping it abstract lets the read-back claims quantify over interfaces
whose read after a write differs from the value written. -/
structure HCI (σ : Type) where
  getVolume : σ → Int
  setVolume : Int → σ → σ
  getMute : σ → Bool
  setMute : Bool → σ → σ

/-- A faithful interface: the state is the (volume, mute) pair itself. -/
def idHCI : HCI (Int × Bool) :=
  ⟨fun s => s.1, fun i s => (i, s.2), fun s => s.2, fun b s => (s.1, b)⟩

/-- A quantizing fake interface: every volume write lands on 47, so the
value read back after a write differs from the value requested. -/
def quantHCI : HCI Int :=
  ⟨fun s => s, fun _ _ => 47, fun _ => false, fun _ s => s⟩

/-! ### State publishers (`updateVolume`, `updateMute`) -/

/-- Model of `updateVolume`: publish a fresh volume read, non-retained. -/
def updateVolume {σ : Type} (hci : HCI σ) (h : String) (s : σ) : Event :=
  Event.publish (getTopicPrefix h ++ "/state/volume") false (goItoa (hci.getVolume s))

/-- Model of `updateMute`: publish a fresh mute read, non-retained. -/
def updateMute {σ : Type} (hci : HCI σ) (h : String) (s : σ) : Event :=
  Event.publish (getTopicPrefix h ++ "/state/mute") false (goBoolStr (hci.getMute s))

/-! ### The `main.go` message handler -/

/-- The volume command block of `main.go`'s `listen` callback:
parse, range-check, mutate, then publish fresh reads of volume and mute
(with no delay between the mutation and the publishes). -/
def volumeBlockMain {σ : Type} (hci : HCI σ) (h payload : String) (s : σ) :
    σ × List Event :=
  match goAtoi payload with
  | some i =>
    if 0 ≤ i ∧ i ≤ 100 then
      let s1 := hci.setVolume i s
      (s1, [Event.setVolume i, updateVolume hci h s1, updateMute hci h s1])
    else (s, [Event.logMsg "Incorrect value"])
  | none => (s, [Event.logMsg "Incorrect value"])

/-- The mute command block of `main.go`'s `listen` callback. -/
def muteBlockMain {σ : Type} (hci : HCI σ) (h payload : String) (s : σ) :
    σ × List Event :=
  match goParseBool payload with
  | some b =>
    let s1 := hci.setMute b s
    (s1, [Event.setMute b, updateVolume hci h s1, updateMute hci h s1])
  | none => (s, [Event.logMsg "Incorrect value"])

/-- The sleep/displaysleep/shutdown blocks of `main.go`'s `listen`
callback: on the exact literal payload, publish an acknowledgement,
sleep one second, then run the host action; otherwise do nothing.
`commandShutdown`'s two privilege-dependent shell paths are collapsed
into the single `cmdShutdown` host-action event. -/
def actionBlockMain (h payload literal : String) (act : Event) : List Event :=
  if payload = literal then
    [Event.publish (getTopicPrefix h ++ "/state/" ++ literal) false
        (literal ++ "_command_received"),
      Event.sleepSec 1, act]
  else []

/-- Model of `main.go`'s `listen` subscription callback.  The source is a
sequence of five independent `if` blocks on the exact topic, executed in
order; the audio state threads through them. -/
def onMessageMain {σ : Type} (hci : HCI σ) (h topic payload : String) (s : σ) :
    σ × List Event :=
  let pre := getTopicPrefix h
  let r1 := if topic = pre ++ "/command/volume" then volumeBlockMain hci h payload s
    else (s, [])
  let r2 := if topic = pre ++ "/command/mute" then muteBlockMain hci h payload r1.1
    else (r1.1, [])
  let e3 := if topic = pre ++ "/command/sleep" then
      actionBlockMain h payload "sleep" Event.cmdSleep
    else []
  let e4 := if topic = pre ++ "/command/displaysleep" then
      actionBlockMain h payload "displaysleep" Event.cmdDisplaySleep
    else []
  let e5 := if topic = pre ++ "/command/shutdown" then
      actionBlockMain h payload "shutdown" Event.cmdShutdown
    else []
  (r2.1, r1.2 ++ r2.2 ++ e3 ++ e4 ++ e5)

/-! ### The `part_000` variant of the message handler -/

/-- The volume command block of the `part_000` variant: parse,
range-check, mutate, sleep one second, then publish fresh reads. -/
def volumeBlockPart {σ : Type} (hci : HCI σ) (h payload : String) (s : σ) :
    σ × List Event :=
  match goAtoi payload with
  | some i =>
    if 0 ≤ i ∧ i ≤ 100 then
      let s1 := hci.setVolume i s
      (s1, [Event.setVolume i, Event.sleepSec 1,
        updateVolume hci h s1, updateMute hci h s1])
    else (s, [Event.logMsg "Incorrect volume value"])
  | none => (s, [Event.logMsg "Incorrect volume value"])

/-- The mute command block of the `part_000` variant. -/
def muteBlockPart {σ : Type} (hci : HCI σ) (h payload : String) (s : σ) :
    σ × List Event :=
  match goParseBool payload with
  | some b =>
    let s1 := hci.setMute b s
    (s1, [Event.setMute b, Event.sleepSec 1,
      updateVolume hci h s1, updateMute hci h s1])
  | none => (s, [Event.logMsg "Incorrect mute value"])

/-- The receipt log line the `part_000` callback emits for every message
(`log.Println` prints its format-string argument verbatim followed by the
remaining operands, space-separated). -/
def recvLog (topic payload : String) : Event :=
  Event.logMsg ("Received command:  [ %s ] [ %s ] " ++ topic ++ " " ++ payload)

/-- Model of the `part_000` variant's `listen` subscription callback: an
`else if` chain after an unconditional receipt log; the sleep,
displaysleep and shutdown blocks run the host action directly on the
exact literal payload with no acknowledgement publish. -/
def onMessagePart {σ : Type} (hci : HCI σ) (h topic payload : String) (s : σ) :
    σ × List Event :=
  let pre := getTopicPrefix h
  let rl := recvLog topic payload
  if topic = pre ++ "/command/volume" then
    let r := volumeBlockPart hci h payload s
    (r.1, rl :: r.2)
  else if topic = pre ++ "/command/mute" then
    let r := muteBlockPart hci h payload s
    (r.1, rl :: r.2)
  else if topic = pre ++ "/command/sleep" then
    (s, rl :: (if payload = "sleep" then [Event.cmdSleep] else []))
  else if topic = pre ++ "/command/displaysleep" then
    (s, rl :: (if payload = "displaysleep" then [Event.cmdDisplaySleep] else []))
  else if topic = pre ++ "/command/shutdown" then
    (s, rl :: (if payload = "shutdown" then [Event.cmdShutdown] else []))
  else (s, [rl])

/-! ### Topic dispatch lemmas -/

/-- String append is left-cancellative. -/
theorem append_cancel_iff (a b c : String) : a ++ b = a ++ c ↔ b = c := by
  constructor
  · intro e
    have e2 : a.data ++ b.data = a.data ++ c.data := by
      rw [← String.data_append, ← String.data_append, e]
    exact String.ext (List.append_cancel_left e2)
  · intro e; rw [e]

/-- Distinct command suffixes give distinct topics under the same prefix. -/
theorem cmd_topic_ne (h b c : String) (hbc : b ≠ c) :
    getTopicPrefix h ++ b ≠ getTopicPrefix h ++ c := by
  intro e; exact hbc ((append_cancel_iff _ _ _).mp e)

/-- `main.go`'s callback on the volume command topic runs the volume block. -/
theorem onMessageMain_volume {σ : Type} (hci : HCI σ) (h payload : String) (s : σ) :
    onMessageMain hci h (getTopicPrefix h ++ "/command/volume") payload s
      = volumeBlockMain hci h payload s := by
  have h2 := cmd_topic_ne h "/command/volume" "/command/mute" (by decide)
  have h3 := cmd_topic_ne h "/command/volume" "/command/sleep" (by decide)
  have h4 := cmd_topic_ne h "/command/volume" "/command/displaysleep" (by decide)
  have h5 := cmd_topic_ne h "/command/volume" "/command/shutdown" (by decide)
  simp [onMessageMain, h2, h3, h4, h5]

/-- `main.go`'s callback on the mute command topic runs the mute block. -/
theorem onMessageMain_mute {σ : Type} (hci : HCI σ) (h payload : String) (s : σ) :
    onMessageMain hci h (getTopicPrefix h ++ "/command/mute") payload s
      = muteBlockMain hci h payload s := by
  have h1 := cmd_topic_ne h "/command/mute" "/command/volume" (by decide)
  have h3 := cmd_topic_ne h "/command/mute" "/command/sleep" (by decide)
  have h4 := cmd_topic_ne h "/command/mute" "/command/displaysleep" (by decide)
  have h5 := cmd_topic_ne h "/command/mute" "/command/shutdown" (by decide)
  simp [onMessageMain, h1, h3, h4, h5]

/-- `main.go`'s callback on the sleep command topic runs the sleep block. -/
theorem onMessageMain_sleep {σ : Type} (hci : HCI σ) (h payload : String) (s : σ) :
    onMessageMain hci h (getTopicPrefix h ++ "/command/sleep") payload s
      = (s, actionBlockMain h payload "sleep" Event.cmdSleep) := by
  have h1 := cmd_topic_ne h "/command/sleep" "/command/volume" (by decide)
  have h2 := cmd_topic_ne h "/command/sleep" "/command/mute" (by decide)
  have h4 := cmd_topic_ne h "/command/sleep" "/command/displaysleep" (by decide)
  have h5 := cmd_topic_ne h "/command/sleep" "/command/shutdown" (by decide)
  simp [onMessageMain, h1, h2, h4, h5]

/-- `main.go`'s callback on the displaysleep command topic. -/
theorem onMessageMain_displaysleep {σ : Type} (hci : HCI σ) (h payload : String) (s : σ) :
    onMessageMain hci h (getTopicPrefix h ++ "/command/displaysleep") payload s
      = (s, actionBlockMain h payload "displaysleep" Event.cmdDisplaySleep) := by
  have h1 := cmd_topic_ne h "/command/displaysleep" "/command/volume" (by decide)
  have h2 := cmd_topic_ne h "/command/displaysleep" "/command/mute" (by decide)
  have h3 := cmd_topic_ne h "/command/displaysleep" "/command/sleep" (by decide)
  have h5 := cmd_topic_ne h "/command/displaysleep" "/command/shutdown" (by decide)
  simp [onMessageMain, h1, h2, h3, h5]

/-- `main.go`'s callback on the shutdown command topic. -/
theorem onMessageMain_shutdown {σ : Type} (hci : HCI σ) (h payload : String) (s : σ) :
    onMessageMain hci h (getTopicPrefix h ++ "/command/shutdown") payload s
      = (s, actionBlockMain h payload "shutdown" Event.cmdShutdown) := by
  have h1 := cmd_topic_ne h "/command/shutdown" "/command/volume" (by decide)
  have h2 := cmd_topic_ne h "/command/shutdown" "/command/mute" (by decide)
  have h3 := cmd_topic_ne h "/command/shutdown" "/command/sleep" (by decide)
  have h4 := cmd_topic_ne h "/command/shutdown" "/command/displaysleep" (by decide)
  simp [onMessageMain, h1, h2, h3, h4]

/-- The `part_000` callback on the volume command topic. -/
theorem onMessagePart_volume {σ : Type} (hci : HCI σ) (h payload : String) (s : σ) :
    onMessagePart hci h (getTopicPrefix h ++ "/command/volume") payload s
      = ((volumeBlockPart hci h payload s).1,
         recvLog (getTopicPrefix h ++ "/command/volume") payload
           :: (volumeBlockPart hci h payload s).2) := by
  simp [onMessagePart]

/-- The `part_000` callback on the mute command topic. -/
theorem onMessagePart_mute {σ : Type} (hci : HCI σ) (h payload : String) (s : σ) :
    onMessagePart hci h (getTopicPrefix h ++ "/command/mute") payload s
      = ((muteBlockPart hci h payload s).1,
         recvLog (getTopicPrefix h ++ "/command/mute") payload
           :: (muteBlockPart hci h payload s).2) := by
  have h1 := cmd_topic_ne h "/command/mute" "/command/volume" (by decide)
  simp [onMessagePart, h1]

/-- The `part_000` callback on the sleep command topic. -/
theorem onMessagePart_sleep {σ : Type} (hci : HCI σ) (h payload : String) (s : σ) :
    onMessagePart hci h (getTopicPrefix h ++ "/command/sleep") payload s
      = (s, recvLog (getTopicPrefix h ++ "/command/sleep") payload
           :: (if payload = "sleep" then [Event.cmdSleep] else [])) := by
  have h1 := cmd_topic_ne h "/command/sleep" "/command/volume" (by decide)
  have h2 := cmd_topic_ne h "/command/sleep" "/command/mute" (by decide)
  simp [onMessagePart, h1, h2]

/-- The `part_000` callback on the displaysleep command topic. -/
theorem onMessagePart_displaysleep {σ : Type} (hci : HCI σ) (h payload : String) (s : σ) :
    onMessagePart hci h (getTopicPrefix h ++ "/command/displaysleep") payload s
      = (s, recvLog (getTopicPrefix h ++ "/command/displaysleep") payload
           :: (if payload = "displaysleep" then [Event.cmdDisplaySleep] else [])) := by
  have h1 := cmd_topic_ne h "/command/displaysleep" "/command/volume" (by decide)
  have h2 := cmd_topic_ne h "/command/displaysleep" "/command/mute" (by decide)
  have h3 := cmd_topic_ne h "/command/displaysleep" "/command/sleep" (by decide)
  simp [onMessagePart, h1, h2, h3]

/-- The `part_000` callback on the shutdown command topic. -/
theorem onMessagePart_shutdown {σ : Type} (hci : HCI σ) (h payload : String) (s : σ) :
    onMessagePart hci h (getTopicPrefix h ++ "/command/shutdown") payload s
      = (s, recvLog (getTopicPrefix h ++ "/command/shutdown") payload
           :: (if payload = "shutdown" then [Event.cmdShutdown] else [])) := by
  have h1 := cmd_topic_ne h "/command/shutdown" "/command/volume" (by decide)
  have h2 := cmd_topic_ne h "/command/shutdown" "/command/mute" (by decide)
  have h3 := cmd_topic_ne h "/command/shutdown" "/command/sleep" (by decide)
  have h4 := cmd_topic_ne h "/command/shutdown" "/command/displaysleep" (by decide)
  simp [onMessagePart, h1, h2, h3, h4]

/-! ### Claims about the command handler -/

/-- Claim C1: for every valid volume command (payload parsing to an
integer in [0,100]), the volume state value subsequently published equals
a fresh read of the current volume from the Host Control Interface at
publish time, not the integer from the command payload; in particular,
for the quantizing interface whose read after a write returns 47, the
command "55" publishes "47", not "55". -/
theorem claim1_volume_readback :
    (∀ (σ : Type) (hci : HCI σ) (s : σ) (h payload : String) (i : Int),
      goAtoi payload = some i → 0 ≤ i → i ≤ 100 →
      (onMessageMain hci h (getTopicPrefix h ++ "/command/volume") payload s).2
        = [Event.setVolume i,
           Event.publish (getTopicPrefix h ++ "/state/volume") false
             (goItoa (hci.getVolume (hci.setVolume i s))),
           Event.publish (getTopicPrefix h ++ "/state/mute") false
             (goBoolStr (hci.getMute (hci.setVolume i s)))])
    ∧ ((onMessageMain quantHCI "testhost"
          (getTopicPrefix "testhost" ++ "/command/volume") "55" 0).2
        = [Event.setVolume 55,
           Event.publish "homeassistant/testhost/state/volume" false "47",
           Event.publish "homeassistant/testhost/state/mute" false "false"]
       ∧ ("47" : String) ≠ "55") := by
  constructor
  · intro σ hci s h payload i hp h0 h100
    rw [onMessageMain_volume]
    simp [volumeBlockMain, hp, h0, h100, updateVolume, updateMute]
  · constructor
    · rw [onMessageMain_volume]
      decide
    · decide

/-- Witness for C1 at the concrete quantizing interface and payload "55". -/
theorem claim1_witness :
    (onMessageMain quantHCI "testhost"
        (getTopicPrefix "testhost" ++ "/command/volume") "55" 0).2
      = [Event.setVolume 55,
         Event.publish (getTopicPrefix "testhost" ++ "/state/volume") false
           (goItoa (quantHCI.getVolume (quantHCI.setVolume 55 0))),
         Event.publish (getTopicPrefix "testhost" ++ "/state/mute") false
           (goBoolStr (quantHCI.getMute (quantHCI.setVolume 55 0)))] :=
  claim1_volume_readback.1 Int quantHCI 0 "testhost" "55" 55 (by decide)
    (by decide) (by decide)

/-- Claim C2: for every payload on the volume command topic that is not a
decimal integer or denotes an integer outside [0,100], the handler
performs no mutation (the audio state is returned unchanged and no
`setVolume` event occurs) and publishes no state message; the only side
effect is the rejection log line (plus, in the `part_000` variant, its
unconditional receipt log). -/
theorem claim2_invalid_volume_rejected :
    ∀ (σ : Type) (hci : HCI σ) (s : σ) (h payload : String),
      (goAtoi payload = none ∨ ∃ i, goAtoi payload = some i ∧ (i < 0 ∨ 100 < i)) →
      onMessageMain hci h (getTopicPrefix h ++ "/command/volume") payload s
        = (s, [Event.logMsg "Incorrect value"])
      ∧ onMessagePart hci h (getTopicPrefix h ++ "/command/volume") payload s
        = (s, [recvLog (getTopicPrefix h ++ "/command/volume") payload,
               Event.logMsg "Incorrect volume value"]) := by
  intro σ hci s h payload hbad
  have hmain := onMessageMain_volume hci h payload s
  have hpart := onMessagePart_volume hci h payload s
  rcases hbad with hnone | ⟨i, hsome, hrange⟩
  · constructor
    · rw [hmain]; simp [volumeBlockMain, hnone]
    · rw [hpart]; simp [volumeBlockPart, hnone]
  · have hcond : ¬ (0 ≤ i ∧ i ≤ 100) := by omega
    constructor
    · rw [hmain]; simp [volumeBlockMain, hsome, hcond]
    · rw [hpart]; simp [volumeBlockPart, hsome, hcond]

/-- Witness for C2 at the out-of-range payload "150". -/
theorem claim2_witness :
    onMessageMain idHCI "m" (getTopicPrefix "m" ++ "/command/volume") "150" (20, false)
      = ((20, false), [Event.logMsg "Incorrect value"]) :=
  (claim2_invalid_volume_rejected (Int × Bool) idHCI (20, false) "m" "150"
    (Or.inr ⟨150, by decide, by decide⟩)).1

/-- True when the event list contains a `time.Sleep` event. -/
def hasSleepEvent : List Event → Bool
  | [] => false
  | Event.sleepSec _ :: _ => true
  | _ :: rest => hasSleepEvent rest

/-- Counterexample to claim C3: in `main.go`'s handler, a successful
volume command mutates and then publishes immediately — the event list
contains no settle-delay sleep between the mutator and the publishes. -/
theorem claim3_counterexample :
    (onMessageMain idHCI "m" (getTopicPrefix "m" ++ "/command/volume")
        "50" (20, false)).2
      = [Event.setVolume 50,
         Event.publish "homeassistant/m/state/volume" false "50",
         Event.publish "homeassistant/m/state/mute" false "false"]
    ∧ hasSleepEvent (onMessageMain idHCI "m"
        (getTopicPrefix "m" ++ "/command/volume") "50" (20, false)).2 = false := by
  constructor
  · rw [onMessageMain_volume]; decide
  · rw [onMessageMain_volume]; decide

/-- Claim C3 as amended: on every successful volume or mute command the
handler invokes the mutator and then the State Publisher for volume and
then mute, in that order; the `part_000` variant waits a 1-second settle
delay between the mutation and the publishes, while the `main.go`
variant publishes immediately with no delay. -/
theorem claim3_amended_order :
    ∀ (σ : Type) (hci : HCI σ) (s : σ) (h payload : String),
      (∀ i : Int, goAtoi payload = some i → 0 ≤ i → i ≤ 100 →
        (onMessageMain hci h (getTopicPrefix h ++ "/command/volume") payload s).2
          = [Event.setVolume i, updateVolume hci h (hci.setVolume i s),
             updateMute hci h (hci.setVolume i s)]
        ∧ (onMessagePart hci h (getTopicPrefix h ++ "/command/volume") payload s).2
          = [recvLog (getTopicPrefix h ++ "/command/volume") payload,
             Event.setVolume i, Event.sleepSec 1,
             updateVolume hci h (hci.setVolume i s),
             updateMute hci h (hci.setVolume i s)])
      ∧ (∀ b : Bool, goParseBool payload = some b →
        (onMessageMain hci h (getTopicPrefix h ++ "/command/mute") payload s).2
          = [Event.setMute b, updateVolume hci h (hci.setMute b s),
             updateMute hci h (hci.setMute b s)]
        ∧ (onMessagePart hci h (getTopicPrefix h ++ "/command/mute") payload s).2
          = [recvLog (getTopicPrefix h ++ "/command/mute") payload,
             Event.setMute b, Event.sleepSec 1,
             updateVolume hci h (hci.setMute b s),
             updateMute hci h (hci.setMute b s)]) := by
  intro σ hci s h payload
  constructor
  · intro i hp h0 h100
    constructor
    · rw [onMessageMain_volume]
      simp [volumeBlockMain, hp, h0, h100]
    · rw [onMessagePart_volume]
      simp [volumeBlockPart, hp, h0, h100]
  · intro b hp
    constructor
    · rw [onMessageMain_mute]
      simp [muteBlockMain, hp]
    · rw [onMessagePart_mute]
      simp [muteBlockPart, hp]

/-- Witness for the amended C3 at payload "50". -/
theorem claim3_amended_witness :
    (onMessageMain idHCI "m" (getTopicPrefix "m" ++ "/command/volume")
        "50" (20, false)).2
      = [Event.setVolume 50, updateVolume idHCI "m" (idHCI.setVolume 50 (20, false)),
         updateMute idHCI "m" (idHCI.setVolume 50 (20, false))] :=
  ((claim3_amended_order (Int × Bool) idHCI (20, false) "m" "50").1 50
    (by decide) (by decide) (by decide)).1

/-- Counterexample to claim C4: the payload "1" is neither of the literal
forms "true"/"false", yet the mute command handler accepts it and invokes
`setMute true` (Go `strconv.ParseBool` accepts twelve literal forms). -/
theorem claim4_counterexample :
    onMessageMain idHCI "m" (getTopicPrefix "m" ++ "/command/mute") "1" (20, false)
      = ((20, true),
         [Event.setMute true,
          Event.publish "homeassistant/m/state/volume" false "20",
          Event.publish "homeassistant/m/state/mute" false "true"])
    ∧ ("1" : String) ≠ "true" ∧ ("1" : String) ≠ "false" := by
  refine ⟨?_, by decide, by decide⟩
  rw [onMessageMain_mute]; decide

/-- Claim C4 as amended: a mute command payload is accepted exactly when
it is one of Go `strconv.ParseBool`'s twelve literal forms
"1","t","T","TRUE","true","True","0","f","F","FALSE","false","False";
every other payload (e.g. "notabool") is rejected, logged, and `setMute`
is never invoked; on an accepted payload the parsed boolean is applied. -/
theorem claim4_amended_mute_forms :
    (∀ p : String, (goParseBool p).isSome = true
       ↔ p ∈ (["1", "t", "T", "TRUE", "true", "True",
               "0", "f", "F", "FALSE", "false", "False"] : List String))
    ∧ (∀ (σ : Type) (hci : HCI σ) (s : σ) (h payload : String),
        goParseBool payload = none →
        onMessageMain hci h (getTopicPrefix h ++ "/command/mute") payload s
          = (s, [Event.logMsg "Incorrect value"])
        ∧ onMessagePart hci h (getTopicPrefix h ++ "/command/mute") payload s
          = (s, [recvLog (getTopicPrefix h ++ "/command/mute") payload,
                 Event.logMsg "Incorrect mute value"]))
    ∧ (∀ (σ : Type) (hci : HCI σ) (s : σ) (h payload : String) (b : Bool),
        goParseBool payload = some b →
        onMessageMain hci h (getTopicPrefix h ++ "/command/mute") payload s
          = (hci.setMute b s,
             [Event.setMute b, updateVolume hci h (hci.setMute b s),
              updateMute hci h (hci.setMute b s)])) := by
  refine ⟨?_, ?_, ?_⟩
  · intro p
    simp only [goParseBool]
    split
    · rename_i h1
      simp only [List.mem_cons, List.not_mem_nil, or_false] at h1 ⊢
      simp only [Option.isSome_some, true_iff]
      tauto
    · rename_i h1
      split
      · rename_i h2
        simp only [List.mem_cons, List.not_mem_nil, or_false] at h2 ⊢
        simp only [Option.isSome_some, true_iff]
        tauto
      · rename_i h2
        simp only [List.mem_cons, List.not_mem_nil, or_false] at h1 h2 ⊢
        simp only [Option.isSome_none, false_iff]
        tauto
  · intro σ hci s h payload hnone
    constructor
    · rw [onMessageMain_mute]; simp [muteBlockMain, hnone]
    · rw [onMessagePart_mute]; simp [muteBlockPart, hnone]
  · intro σ hci s h payload b hsome
    rw [onMessageMain_mute]; simp [muteBlockMain, hsome]

/-- Witness for the amended C4 at the rejected payload "notabool". -/
theorem claim4_amended_witness :
    onMessageMain idHCI "m" (getTopicPrefix "m" ++ "/command/mute") "notabool" (20, false)
      = ((20, false), [Event.logMsg "Incorrect value"]) :=
  (claim4_amended_mute_forms.2.1 (Int × Bool) idHCI (20, false) "m" "notabool"
    (by decide)).1

/-- Claim C5: on the sleep, displaysleep and shutdown command topics the
corresponding host action fires exactly on the literal payload "sleep",
"displaysleep", "shutdown" respectively, in both handler variants; any
other payload on those topics is a no-op — in `main.go` the handler
produces no event at all, and in `part_000` only its unconditional
receipt log. -/
theorem claim5_exact_literal_actions :
    ∀ (σ : Type) (hci : HCI σ) (s : σ) (h payload : String),
      ((Event.cmdSleep ∈ (onMessageMain hci h
            (getTopicPrefix h ++ "/command/sleep") payload s).2 ↔ payload = "sleep")
        ∧ (payload ≠ "sleep" → onMessageMain hci h
            (getTopicPrefix h ++ "/command/sleep") payload s = (s, [])))
      ∧ ((Event.cmdDisplaySleep ∈ (onMessageMain hci h
            (getTopicPrefix h ++ "/command/displaysleep") payload s).2
              ↔ payload = "displaysleep")
        ∧ (payload ≠ "displaysleep" → onMessageMain hci h
            (getTopicPrefix h ++ "/command/displaysleep") payload s = (s, [])))
      ∧ ((Event.cmdShutdown ∈ (onMessageMain hci h
            (getTopicPrefix h ++ "/command/shutdown") payload s).2
              ↔ payload = "shutdown")
        ∧ (payload ≠ "shutdown" → onMessageMain hci h
            (getTopicPrefix h ++ "/command/shutdown") payload s = (s, [])))
      ∧ (Event.cmdSleep ∈ (onMessagePart hci h
            (getTopicPrefix h ++ "/command/sleep") payload s).2 ↔ payload = "sleep")
      ∧ (Event.cmdDisplaySleep ∈ (onMessagePart hci h
            (getTopicPrefix h ++ "/command/displaysleep") payload s).2
              ↔ payload = "displaysleep")
      ∧ (Event.cmdShutdown ∈ (onMessagePart hci h
            (getTopicPrefix h ++ "/command/shutdown") payload s).2
              ↔ payload = "shutdown")
      ∧ (payload ≠ "sleep" → onMessagePart hci h
            (getTopicPrefix h ++ "/command/sleep") payload s
              = (s, [recvLog (getTopicPrefix h ++ "/command/sleep") payload])) := by
  intro σ hci s h payload
  rw [onMessageMain_sleep hci h payload s, onMessageMain_displaysleep hci h payload s,
    onMessageMain_shutdown hci h payload s, onMessagePart_sleep hci h payload s,
    onMessagePart_displaysleep hci h payload s, onMessagePart_shutdown hci h payload s]
  refine ⟨⟨?_, ?_⟩, ⟨?_, ?_⟩, ⟨?_, ?_⟩, ?_, ?_, ?_, ?_⟩
  · by_cases he : payload = "sleep" <;> simp [actionBlockMain, he]
  · intro hne; simp [actionBlockMain, hne]
  · by_cases he : payload = "displaysleep" <;> simp [actionBlockMain, he]
  · intro hne; simp [actionBlockMain, hne]
  · by_cases he : payload = "shutdown" <;> simp [actionBlockMain, he]
  · intro hne; simp [actionBlockMain, hne]
  · by_cases he : payload = "sleep" <;> simp [he, recvLog]
  · by_cases he : payload = "displaysleep" <;> simp [he, recvLog]
  · by_cases he : payload = "shutdown" <;> simp [he, recvLog]
  · intro hne; simp [hne]

/-- Witness for C5: the payload "nope" on the sleep command topic of
`main.go`'s handler is a silent no-op. -/
theorem claim5_witness :
    onMessageMain idHCI "m" (getTopicPrefix "m" ++ "/command/sleep") "nope" (20, false)
      = ((20, false), []) :=
  ((claim5_exact_literal_actions (Int × Bool) idHCI (20, false) "m" "nope").1).2
    (by decide)

/-! ### JSON serialization (model of Go `encoding/json.Marshal` output)

Go marshals struct fields in declaration order, omits `omitempty` string
fields that are empty, and escapes `"`, `\`, control characters and (by
default) the HTML characters `<`, `>`, `&` and U+2028/U+2029 in strings. -/

/-- Lowercase hexadecimal digit. -/
def hexDigitChar (n : Nat) : Char :=
  if n < 10 then Char.ofNat ('0'.toNat + n) else Char.ofNat ('a'.toNat + (n - 10))

/-- Escape one character the way Go `encoding/json` does. -/
def jsonEscapeChar (c : Char) : String :=
  if c = '"' then "\\\""
  else if c = '\\' then "\\\\"
  else if c = '<' then "\\u003c"
  else if c = '>' then "\\u003e"
  else if c = '&' then "\\u0026"
  else if c = '\n' then "\\n"
  else if c = '\r' then "\\r"
  else if c = '\t' then "\\t"
  else if c.toNat < 0x20 then
    "\\u00" ++ String.mk [hexDigitChar (c.toNat / 16), hexDigitChar (c.toNat % 16)]
  else if c.toNat = 0x2028 then "\\u2028"
  else if c.toNat = 0x2029 then "\\u2029"
  else String.mk [c]

/-- JSON string literal. -/
def jsonStr (s : String) : String :=
  "\"" ++ (s.data.map jsonEscapeChar).foldl (fun a b => a ++ b) "" ++ "\""

/-- Comma-join already-serialized pieces. -/
def joinComma : List String → String
  | [] => ""
  | [s] => s
  | s :: rest => s ++ "," ++ joinComma rest

/-- JSON object from already-serialized `"key":value` members. -/
def jsonObjOf (members : List String) : String :=
  "\x7b" ++ joinComma members ++ "\x7d"

/-- JSON array from already-serialized elements. -/
def jsonArrOf (elems : List String) : String :=
  "[" ++ joinComma elems ++ "]"

/-- One `"key":value` object member. -/
def jsonMember (k v : String) : String := jsonStr k ++ ":" ++ v

/-- An `omitempty` string member: omitted when the value is empty. -/
def jsonOptMember (k v : String) : List String :=
  if v = "" then [] else [jsonMember k (jsonStr v)]

/-! ### Home Assistant discovery descriptors (`main.go` structs) -/

/-- Go struct `Device`. -/
structure Device where
  identifiers : List String
  name : String
  manufacturer : String
  model : String
deriving DecidableEq, Repr

/-- Serialization of `Device` (all fields mandatory). -/
def Device.json (d : Device) : String :=
  jsonObjOf
    [jsonMember "identifiers" (jsonArrOf (d.identifiers.map jsonStr)),
     jsonMember "name" (jsonStr d.name),
     jsonMember "manufacturer" (jsonStr d.manufacturer),
     jsonMember "model" (jsonStr d.model)]

/-- Go struct `SensorConfig`. -/
structure SensorConfig where
  name : String
  stateTopic : String
  uniqueID : String
  unitOfMeasurement : String
  deviceClass : String
  valueTemplate : String
  device : Device
deriving DecidableEq, Repr

/-- Serialization of `SensorConfig` (three `omitempty` fields). -/
def SensorConfig.json (c : SensorConfig) : String :=
  jsonObjOf
    ([jsonMember "name" (jsonStr c.name),
      jsonMember "state_topic" (jsonStr c.stateTopic),
      jsonMember "unique_id" (jsonStr c.uniqueID)]
     ++ jsonOptMember "unit_of_measurement" c.unitOfMeasurement
     ++ jsonOptMember "device_class" c.deviceClass
     ++ jsonOptMember "value_template" c.valueTemplate
     ++ [jsonMember "device" c.device.json])

/-- Go struct `BinarySensorConfig`. -/
structure BinarySensorConfig where
  name : String
  stateTopic : String
  uniqueID : String
  deviceClass : String
  payloadOn : String
  payloadOff : String
  device : Device
deriving DecidableEq, Repr

/-- Serialization of `BinarySensorConfig`. -/
def BinarySensorConfig.json (c : BinarySensorConfig) : String :=
  jsonObjOf
    ([jsonMember "name" (jsonStr c.name),
      jsonMember "state_topic" (jsonStr c.stateTopic),
      jsonMember "unique_id" (jsonStr c.uniqueID)]
     ++ jsonOptMember "device_class" c.deviceClass
     ++ jsonOptMember "payload_on" c.payloadOn
     ++ jsonOptMember "payload_off" c.payloadOff
     ++ [jsonMember "device" c.device.json])

/-- Go struct `SwitchConfig`. -/
structure SwitchConfig where
  name : String
  commandTopic : String
  stateTopic : String
  uniqueID : String
  device : Device
deriving DecidableEq, Repr

/-- Serialization of `SwitchConfig` (`state_topic` is `omitempty`). -/
def SwitchConfig.json (c : SwitchConfig) : String :=
  jsonObjOf
    ([jsonMember "name" (jsonStr c.name),
      jsonMember "command_topic" (jsonStr c.commandTopic)]
     ++ jsonOptMember "state_topic" c.stateTopic
     ++ [jsonMember "unique_id" (jsonStr c.uniqueID),
         jsonMember "device" c.device.json])

/-- Go struct `NumberConfig` (the volume entity). -/
structure NumberConfig where
  name : String
  commandTopic : String
  stateTopic : String
  uniqueID : String
  min : Int
  max : Int
  device : Device
deriving DecidableEq, Repr

/-- Serialization of `NumberConfig` (no `omitempty` fields). -/
def NumberConfig.json (c : NumberConfig) : String :=
  jsonObjOf
    [jsonMember "name" (jsonStr c.name),
     jsonMember "command_topic" (jsonStr c.commandTopic),
     jsonMember "state_topic" (jsonStr c.stateTopic),
     jsonMember "unique_id" (jsonStr c.uniqueID),
     jsonMember "min" (goItoa c.min),
     jsonMember "max" (goItoa c.max),
     jsonMember "device" c.device.json]

/-- The descriptor kinds `publishConfig` is called with in `main.go`. -/
inductive EntityConfig where
  | number (c : NumberConfig)
  | switch (c : SwitchConfig)
  | sensor (c : SensorConfig)
  | binarySensor (c : BinarySensorConfig)
deriving DecidableEq, Repr

/-- The unique identifier of a descriptor. -/
def EntityConfig.uniqueID : EntityConfig → String
  | .number c => c.uniqueID
  | .switch c => c.uniqueID
  | .sensor c => c.uniqueID
  | .binarySensor c => c.uniqueID

/-- The serialized payload of a descriptor. -/
def EntityConfig.json : EntityConfig → String
  | .number c => c.json
  | .switch c => c.json
  | .sensor c => c.json
  | .binarySensor c => c.json

/-! ### The discovery publish pass of `main.go` -/

/-- The shared device record built by `publishHADiscoveryConfig`. -/
def mkDevice (h m : String) : Device := ⟨[h], h, "Apple", m⟩

/-- The volume number descriptor of `publishHADiscoveryConfig`. -/
def volumeNumberConfig (h m : String) : NumberConfig :=
  ⟨h ++ " Volume", getTopicPrefix h ++ "/command/volume",
   getTopicPrefix h ++ "/state/volume", h ++ "_volume", 0, 100, mkDevice h m⟩

/-- The mute switch descriptor. -/
def muteSwitchConfig (h m : String) : SwitchConfig :=
  ⟨h ++ " Mute", getTopicPrefix h ++ "/command/mute",
   getTopicPrefix h ++ "/state/mute", h ++ "_mute", mkDevice h m⟩

/-- The battery sensor descriptor. -/
def batterySensorConfig (h m : String) : SensorConfig :=
  ⟨h ++ " Battery Level", getTopicPrefix h ++ "/state/battery",
   h ++ "_battery", "%", "battery", "", mkDevice h m⟩

/-- The power adapter binary sensor descriptor. -/
def powerAdapterBinaryConfig (h m : String) : BinarySensorConfig :=
  ⟨h ++ " Power Adapter", getTopicPrefix h ++ "/state/power_adapter",
   h ++ "_power_adapter", "plug", "true", "false", mkDevice h m⟩

/-- The sleep switch descriptor. -/
def sleepSwitchConfig (h m : String) : SwitchConfig :=
  ⟨h ++ " Sleep", getTopicPrefix h ++ "/command/sleep",
   getTopicPrefix h ++ "/state/sleep", h ++ "_sleep", mkDevice h m⟩

/-- The display sleep switch descriptor. -/
def displaySleepSwitchConfig (h m : String) : SwitchConfig :=
  ⟨h ++ " Display Sleep", getTopicPrefix h ++ "/command/displaysleep",
   getTopicPrefix h ++ "/state/displaysleep", h ++ "_display_sleep", mkDevice h m⟩

/-- The shutdown switch descriptor. -/
def shutdownSwitchConfig (h m : String) : SwitchConfig :=
  ⟨h ++ " Shutdown", getTopicPrefix h ++ "/command/shutdown",
   getTopicPrefix h ++ "/state/shutdown", h ++ "_shutdown", mkDevice h m⟩

/-- Model of `publishConfig`: one retained publish of the serialized
descriptor to `homeassistant/<component>/<objectId>/config`. -/
def publishConfigEvent (component objectId : String) (cfg : EntityConfig) : Event :=
  Event.publish ("homeassistant/" ++ component ++ "/" ++ objectId ++ "/config")
    true cfg.json

/-- Model of `publishHADiscoveryConfig` in `main.go`: the seven retained
config publishes, in source order, as a function of the global `hostname`
and `model`. -/
def publishHADiscoveryConfig (h m : String) : List Event :=
  [publishConfigEvent "number" (h ++ "_volume")
     (EntityConfig.number (volumeNumberConfig h m)),
   publishConfigEvent "switch" (h ++ "_mute")
     (EntityConfig.switch (muteSwitchConfig h m)),
   publishConfigEvent "sensor" (h ++ "_battery")
     (EntityConfig.sensor (batterySensorConfig h m)),
   publishConfigEvent "binary_sensor" (h ++ "_power_adapter")
     (EntityConfig.binarySensor (powerAdapterBinaryConfig h m)),
   publishConfigEvent "switch" (h ++ "_sleep")
     (EntityConfig.switch (sleepSwitchConfig h m)),
   publishConfigEvent "switch" (h ++ "_display_sleep")
     (EntityConfig.switch (displaySleepSwitchConfig h m)),
   publishConfigEvent "switch" (h ++ "_shutdown")
     (EntityConfig.switch (shutdownSwitchConfig h m))]

/-- Claim C6: for host identity "testhost", the discovery pass publishes
a retained message for the volume number entity to
`homeassistant/number/testhost_volume/config` whose descriptor has
min = 0, max = 100 and unique_id "testhost_volume"; and in general every
discovery publish is retained, addressed to
`homeassistant/<kind>/<unique-id>/config` with the descriptor's own
unique identifier as the topic's object id. -/
theorem claim6_discovery_volume_entity :
    ((volumeNumberConfig "testhost" "testhost").min = 0
      ∧ (volumeNumberConfig "testhost" "testhost").max = 100
      ∧ (volumeNumberConfig "testhost" "testhost").uniqueID = "testhost_volume"
      ∧ Event.publish "homeassistant/number/testhost_volume/config" true
          (EntityConfig.json (EntityConfig.number (volumeNumberConfig "testhost" "testhost")))
          ∈ publishHADiscoveryConfig "testhost" "testhost")
    ∧ (∀ (h m : String), ∀ e ∈ publishHADiscoveryConfig h m,
        ∃ kind cfg, e = Event.publish
          ("homeassistant/" ++ kind ++ "/" ++ EntityConfig.uniqueID cfg ++ "/config")
          true (EntityConfig.json cfg)) := by
  constructor
  · refine ⟨rfl, rfl, by decide, ?_⟩
    have he : Event.publish "homeassistant/number/testhost_volume/config" true
        (EntityConfig.json (EntityConfig.number (volumeNumberConfig "testhost" "testhost")))
        = publishConfigEvent "number" ("testhost" ++ "_volume")
            (EntityConfig.number (volumeNumberConfig "testhost" "testhost")) := by
      simp only [publishConfigEvent]
      congr 1
    rw [he, publishHADiscoveryConfig]
    exact List.mem_cons_self _ _
  · intro h m e he
    simp only [publishHADiscoveryConfig, List.mem_cons, List.not_mem_nil, or_false] at he
    rcases he with he | he | he | he | he | he | he
    · exact ⟨"number", EntityConfig.number (volumeNumberConfig h m), he⟩
    · exact ⟨"switch", EntityConfig.switch (muteSwitchConfig h m), he⟩
    · exact ⟨"sensor", EntityConfig.sensor (batterySensorConfig h m), he⟩
    · exact ⟨"binary_sensor", EntityConfig.binarySensor (powerAdapterBinaryConfig h m), he⟩
    · exact ⟨"switch", EntityConfig.switch (sleepSwitchConfig h m), he⟩
    · exact ⟨"switch", EntityConfig.switch (displaySleepSwitchConfig h m), he⟩
    · exact ⟨"switch", EntityConfig.switch (shutdownSwitchConfig h m), he⟩

/-- Witness for C6 at the first publish of the pass. -/
theorem claim6_witness :
    ∃ kind cfg, publishConfigEvent "number" ("testhost" ++ "_volume")
        (EntityConfig.number (volumeNumberConfig "testhost" "testhost"))
      = Event.publish
          ("homeassistant/" ++ kind ++ "/" ++ EntityConfig.uniqueID cfg ++ "/config")
          true (EntityConfig.json cfg) :=
  claim6_discovery_volume_entity.2 "testhost" "testhost"
    (publishConfigEvent "number" ("testhost" ++ "_volume")
      (EntityConfig.number (volumeNumberConfig "testhost" "testhost")))
    (List.mem_cons_self _ _)

/-! ### The broker's retained-message store -/

/-- The broker's retained-message store: the last retained payload per
topic (non-retained publishes are not stored). -/
def RetainedStore : Type := String → Option String

/-- Apply one event to the retained store. -/
def applyEvent (st : RetainedStore) : Event → RetainedStore
  | Event.publish t r p => if r then (fun q => if q = t then some p else st q) else st
  | _ => st

/-- Apply a list of events to the retained store, left to right. -/
def applyEvents (st : RetainedStore) (es : List Event) : RetainedStore :=
  es.foldl applyEvent st

/-- The last retained payload an event list writes to a topic. -/
def lastRetained : List Event → String → Option String
  | [], _ => none
  | e :: es, q =>
    match lastRetained es q with
    | some p => some p
    | none =>
      match e with
      | Event.publish t r p => if r ∧ q = t then some p else none
      | _ => none

/-- Pointwise characterization of `applyEvents`: the last retained write
to a topic wins, and topics never written keep their previous value. -/
theorem applyEvents_eq (es : List Event) : ∀ (st : RetainedStore) (q : String),
    applyEvents st es q
      = match lastRetained es q with
        | some p => some p
        | none => st q := by
  induction es with
  | nil => intro st q; rfl
  | cons e es ih =>
    intro st q
    show applyEvents (applyEvent st e) es q = _
    rw [ih]
    cases hl : lastRetained es q with
    | some p => simp [lastRetained, hl]
    | none =>
      simp only [lastRetained, hl]
      cases e with
      | publish t r p =>
        cases r with
        | false => simp [applyEvent]
        | true =>
          by_cases hq : q = t
          · simp [applyEvent, hq]
          · simp [applyEvent, hq]
      | setVolume i => simp [applyEvent]
      | setMute b => simp [applyEvent]
      | sleepSec n => simp [applyEvent]
      | logMsg s => simp [applyEvent]
      | cmdSleep => simp [applyEvent]
      | cmdDisplaySleep => simp [applyEvent]
      | cmdShutdown => simp [applyEvent]

/-- Claim C7: the discovery pass is idempotent — its publishes are a pure
function of the host identity and model, so applying the pass to the
broker's retained store twice with the same identity leaves exactly the
store produced by one pass (the retained overwrite is a no-op). -/
theorem claim7_discovery_idempotent :
    ∀ (h m : String) (st : RetainedStore),
      applyEvents (applyEvents st (publishHADiscoveryConfig h m))
          (publishHADiscoveryConfig h m)
        = applyEvents st (publishHADiscoveryConfig h m) := by
  intro h m st
  funext q
  rw [applyEvents_eq, applyEvents_eq]
  cases hl : lastRetained (publishHADiscoveryConfig h m) q with
  | some p => simp [hl]
  | none => simp [hl, applyEvents_eq, hl]

/-! ### Host identity claims -/

/-- Counterexample to claim C8: the identity the process uses is the
string literal "MacBookPRO_M2" assigned in `main`, not the sanitized
machine hostname — for a machine named "myhost.local" the sanitizer
yields "myhost", which differs from the identity actually used. -/
theorem claim8_counterexample :
    getHostname "myhost.local" = "myhost"
    ∧ mainHostname = "MacBookPRO_M2"
    ∧ mainHostname ≠ getHostname "myhost.local" := by
  refine ⟨by decide, rfl, by decide⟩

/-- Claim C8 as amended: the host identity is the fixed literal
"MacBookPRO_M2", immutable for the process lifetime; it consists only of
characters in `[a-zA-Z0-9_-]`, is a fixed point of the sanitizer, and
namespaces the topic tree (`getTopicPrefix` and the command-wildcard
subscription); the `getHostname` function computing the machine
hostname's sanitized first dot-separated part exists but is never
invoked, and every identity it could produce is likewise sanitized. -/
theorem claim8_amended_identity :
    mainHostname = "MacBookPRO_M2"
    ∧ mainModel = mainHostname
    ∧ mainHostname.data.all isAllowedHostChar = true
    ∧ getHostname mainHostname = mainHostname
    ∧ getTopicPrefix mainHostname = "homeassistant/MacBookPRO_M2"
    ∧ mainSubscribeTopic = "homeassistant/MacBookPRO_M2/command/#"
    ∧ (∀ s : String, (getHostname s).data.all isAllowedHostChar = true) := by
  refine ⟨rfl, rfl, by decide, by decide, by decide, by decide, ?_⟩
  intro s
  simp only [getHostname, List.all_eq_true]
  intro c hc
  exact (List.mem_filter.mp hc).2

/-! ### Battery read (`getBatteryInfo`) -/

/-- Group 1 of the leftmost match of the Go regular expression `(\d+)%`:
the first maximal digit run immediately followed by `'%'`; `none` when no
digit run is followed by `'%'` (`regexp.FindStringSubmatch` returns nil
then).  A digit run that does not end at `'%'` can be skipped whole,
since every suffix of it fails at the same non-`'%'` character. -/
def digitPercentMatch : List Char → Option (List Char)
  | [] => none
  | c :: rest =>
    if c.isDigit = true ∧ ((c :: rest).dropWhile Char.isDigit).head? = some '%' then
      some ((c :: rest).takeWhile Char.isDigit)
    else digitPercentMatch rest

/-- Whether some digit character is immediately followed by `'%'` — the
claim's "contains a digit sequence immediately followed by '%'". -/
def hasDigitPercent : List Char → Bool
  | c :: d :: rest => (c.isDigit && decide (d = '%')) || hasDigitPercent (d :: rest)
  | _ => false

/-- Model of `getBatteryInfo`, as a function of the (newline-trimmed)
`pmset -g batt` output.  `none` models the crash: on a nil
`FindStringSubmatch` result the Go code indexes `[1]` into nil and
panics, terminating the process. -/
def getBatteryInfo (output : String) : Option (String × Bool) :=
  (digitPercentMatch output.data).map
    (fun run => (String.mk run, strContains output "AC Power"))

/-- Model of `updateBattery`: the two battery-state publishes, or `none`
when the battery read crashes the process before any publish. -/
def updateBattery (h output : String) : Option (List Event) :=
  (getBatteryInfo output).map fun pc =>
    [Event.publish (getTopicPrefix h ++ "/state/battery") false pc.1,
     Event.publish (getTopicPrefix h ++ "/state/power_adapter") false (goBoolStr pc.2)]

/-- A digit head whose run ends at `'%'` yields an adjacent digit-`'%'`
pair. -/
theorem adjacent_of_run {l : List Char} {c : Char} (hc : c.isDigit = true)
    (hd : (l.dropWhile Char.isDigit).head? = some '%') :
    hasDigitPercent (c :: l) = true := by
  induction l generalizing c with
  | nil => simp [List.dropWhile] at hd
  | cons d rest ih =>
    by_cases hdd : d.isDigit = true
    · have hd2 : (rest.dropWhile Char.isDigit).head? = some '%' := by
        rw [List.dropWhile_cons] at hd
        simpa [hdd] using hd
      have htail := ih hdd hd2
      simp [hasDigitPercent, htail]
    · rw [List.dropWhile_cons] at hd
      simp only [hdd] at hd
      simp only [if_false, List.head?] at hd
      have hd3 : d = '%' := by
        simpa using hd
      simp [hasDigitPercent, hc, hd3]

/-- A successful `(\d+)%` match implies an adjacent digit-`'%'` pair. -/
theorem digitPercentMatch_imp_adjacent :
    ∀ l : List Char, ∀ r : List Char,
      digitPercentMatch l = some r → hasDigitPercent l = true := by
  intro l
  induction l with
  | nil => intro r hr; simp [digitPercentMatch] at hr
  | cons c rest ih =>
    intro r hr
    by_cases hcond : c.isDigit = true
        ∧ ((c :: rest).dropWhile Char.isDigit).head? = some '%'
    · have hd : (rest.dropWhile Char.isDigit).head? = some '%' := by
        have := hcond.2
        rw [List.dropWhile_cons] at this
        simpa [hcond.1] using this
      exact adjacent_of_run hcond.1 hd
    · rw [digitPercentMatch, if_neg hcond] at hr
      have htail := ih r hr
      cases rest with
      | nil => simp [digitPercentMatch] at hr
      | cons d rest2 => simp [hasDigitPercent, htail]

/-- A successful `(\d+)%` match is a nonempty all-digit group. -/
theorem digitPercentMatch_digits :
    ∀ l : List Char, ∀ r : List Char,
      digitPercentMatch l = some r → r ≠ [] ∧ r.all Char.isDigit = true := by
  intro l
  induction l with
  | nil => intro r hr; simp [digitPercentMatch] at hr
  | cons c rest ih =>
    intro r hr
    by_cases hcond : c.isDigit = true
        ∧ ((c :: rest).dropWhile Char.isDigit).head? = some '%'
    · rw [digitPercentMatch, if_pos hcond] at hr
      have hr2 : r = (c :: rest).takeWhile Char.isDigit := by
        exact (Option.some.injEq _ _ ▸ hr).symm
      subst hr2
      constructor
      · rw [List.takeWhile_cons, if_pos hcond.1]
        simp
      · exact List.all_eq_true.mpr fun x hx => List.mem_takeWhile_imp hx
    · rw [digitPercentMatch, if_neg hcond] at hr
      exact ih r hr

/-- Claim C10: when the battery-query output contains no digit sequence
immediately followed by '%', `getBatteryInfo` does not return a value —
the nil regex-match result is indexed and the process crashes, so the
battery publish cycle produces no publish at all; when a match exists,
the returned percent string is nonempty and consists only of decimal
digits. -/
theorem claim10_battery_crash :
    (∀ out : String, hasDigitPercent out.data = false →
      getBatteryInfo out = none ∧ ∀ h : String, updateBattery h out = none)
    ∧ (∀ (out p : String) (c : Bool), getBatteryInfo out = some (p, c) →
      p ≠ "" ∧ p.data.all Char.isDigit = true) := by
  constructor
  · intro out hno
    have hm : digitPercentMatch out.data = none := by
      cases hm : digitPercentMatch out.data with
      | none => rfl
      | some r =>
        have := digitPercentMatch_imp_adjacent out.data r hm
        rw [this] at hno
        exact absurd hno (by simp)
    constructor
    · simp [getBatteryInfo, hm]
    · intro h; simp [updateBattery, getBatteryInfo, hm]
  · intro out p c hsome
    cases hm : digitPercentMatch out.data with
    | none => simp [getBatteryInfo, hm] at hsome
    | some r =>
      have hpr : p = String.mk r := by
        simp [getBatteryInfo, hm] at hsome
        exact hsome.1.symm
      have hd := digitPercentMatch_digits out.data r hm
      subst hpr
      constructor
      · intro hempty
        have : r = [] := by
          have := congrArg String.data hempty
          simpa using this
        exact hd.1 this
      · exact hd.2

set_option maxRecDepth 4000 in
/-- Witness for C10: the match-free line "Now drawing from AC Power"
crashes the battery read, and the sample `pmset` output from the source
comment yields the all-digit percent string "100". -/
theorem claim10_witness :
    (getBatteryInfo "Now drawing from AC Power" = none
      ∧ updateBattery "m" "Now drawing from AC Power" = none)
    ∧ (("100" : String) ≠ "" ∧ ("100" : String).data.all Char.isDigit = true) :=
  ⟨⟨(claim10_battery_crash.1 "Now drawing from AC Power" (by decide)).1,
    (claim10_battery_crash.1 "Now drawing from AC Power" (by decide)).2 "m"⟩,
   claim10_battery_crash.2
     "-InternalBattery-0 (id=4653155)        100%; discharging; 20:00 remaining present: true"
     "100" false (by decide)⟩

end Mac2mqtt
